import Mathlib

/-!
Shallow embedding of the ALISA audit pipeline (Automated Log Integrity &
SoD Analyzer). The definitions below are translated from the Python
sources:

* `src/core/hasher.py`        — SHA-256 digest and verification; the digest
  itself is an external library call (`hashlib.sha256`), so it is modelled
  as an abstract digest function `sha256 : String → String` passed to the
  operations that use it; all behaviour proved here depends only on
  equality of digest strings, never on SHA-256 internals.
* `src/modules/rule_engine.py` — the stateful SoD rule engine.
* `src/modules/reporter.py`    — evidence-artifact construction (the UUID
  and wall-clock timestamp fields are nondeterministic environment reads
  and are omitted from the model; no claim mentions them).
* `src/core/database.py`       — persistence, modelled as the rows a
  pipeline call appends (`IntegrityBaseline` and `AuditItems`).
* `src/main.py`                — `run_pipeline`, the pipeline facade.

Python dicts of strings are modelled as association lists with first-match
lookup; Python sets of strings as duplicate-free lists where only
membership is observed; Python truthiness of an optional string (`None`
and `""` are falsy) as `pyTruthy`.
-/

namespace Alisa

/-- Python truthiness for an optional string: `None` and `""` are falsy,
every other string is truthy. -/
def pyTruthy : Option String → Bool
  | none => false
  | some s => !(s == "")

/-- `d.get(key)` on a Python dict modelled as an association list. -/
def dictGet : List (String × String) → String → Option String
  | [], _ => none
  | (k, v) :: rest, key => if k = key then some v else dictGet rest key

/-! ### hasher.py -/

/-- `verify_integrity(content, baseline_hash)` from `core/hasher.py`:
recomputes the digest of `content` and compares it with the baseline.
The digest function (`generate_sha256`) is the abstract parameter. -/
def verify_integrity (sha256 : String → String) (content : String)
    (baseline_hash : String) : Bool :=
  sha256 content == baseline_hash

/-! ### rule_engine.py -/

/-- One rule from the YAML policy: the `nist_ac2_sod` entry carries a
control `id` and a list of 2-element `conflict_actions` pairs. -/
structure SodRule where
  id : String
  conflict_actions : List (String × String)
deriving DecidableEq

/-- The `rules` dict loaded from configuration; the engine only ever reads
the `nist_ac2_sod` key, so the model records that entry (absent = `none`,
covering both a missing key and an empty rules dict). -/
structure Rules where
  nist_ac2_sod : Option SodRule
deriving DecidableEq

/-- The empty rule set `{}` that `_load_rules` falls back to. -/
def emptyRules : Rules := ⟨none⟩

/-- A parsed configuration document: its `rules` section. -/
structure Config where
  rules : Rules
deriving DecidableEq

/-- `RuleEngine._load_rules`: returns `config.get("rules", {})` on a
successful parse and falls back to the empty dict `{}` when opening or
parsing the configuration raises (modelled as `none`). -/
def load_rules : Option Config → Rules
  | some config => config.rules
  | none => emptyRules

/-- `self.user_state`: dict from user id to the set of actions performed,
modelled as an association list of duplicate-free action lists. -/
abbrev ActorHistory := List (String × List String)

/-- Dict lookup in the engine state. -/
def lookupState : ActorHistory → String → Option (List String)
  | [], _ => none
  | (k, v) :: rest, u => if k = u then some v else lookupState rest u

/-- The action set recorded for actor `u` (empty when the actor is
unobserved). -/
def actorActions (st : ActorHistory) (u : String) : List String :=
  (lookupState st u).getD []

/-- Python `set.add`: a no-op when the element is already present. -/
def setInsert (s : List String) (a : String) : List String :=
  if a ∈ s then s else s ++ [a]

/-- The state update of `analyze_log`: create `{action}` for a new user,
otherwise add the action to the user's existing set. -/
def updateState : ActorHistory → String → String → ActorHistory
  | [], u, a => [(u, [a])]
  | (k, v) :: rest, u, a =>
    if k = u then (k, setInsert v a) :: rest
    else (k, v) :: updateState rest u a

/-- The violation message built in `analyze_log` for a satisfied
conflict pair. -/
def violationMsg (ruleId u actionA actionB : String) : String :=
  "SoD VIOLATION DETECTED (" ++ ruleId ++ "): User '" ++ u ++
    "' performed conflicting actions: " ++ actionA ++ " + " ++ actionB

/-- The violation-collection loop of `analyze_log`: for every conflict
pair of the `nist_ac2_sod` rule (in list order), emit a message when the
user's action set contains both actions of the pair. -/
def sodViolations (rules : Rules) (u : String) (actions : List String) :
    List String :=
  match rules.nist_ac2_sod with
  | none => []
  | some r =>
    r.conflict_actions.filterMap fun p =>
      if p.1 ∈ actions ∧ p.2 ∈ actions then
        some (violationMsg r.id u p.1 p.2)
      else none

/-- The engine object: loaded rules plus per-user action history. -/
structure RuleEngine where
  rules : Rules
  user_state : ActorHistory
deriving DecidableEq

/-- `RuleEngine.analyze_log(structured_log)`: extract `user` and `action`
with `.get`; if either is falsy return `[]` without touching state;
otherwise record the action in the user's set and re-evaluate every
conflict pair of the SoD rule against the updated set. Returns the
violation list together with the updated engine. -/
def analyze_log (e : RuleEngine) (structured_log : List (String × String)) :
    List String × RuleEngine :=
  let user := dictGet structured_log "user"
  let act := dictGet structured_log "action"
  if pyTruthy user && pyTruthy act then
    let u := user.getD ""
    let a := act.getD ""
    let st := updateState e.user_state u a
    (sodViolations e.rules u (actorActions st u), ⟨e.rules, st⟩)
  else
    ([], e)

/-! ### String helpers for the fallback parse in main.py

Python `pat in s` and `s.split(pat)` are modelled by structurally
recursive functions on character lists (Python `split` scans left to
right for non-overlapping occurrences; element `[1]` of the split is the
text between the end of the first occurrence and the start of the next,
or to the end of the string when there is no further occurrence). -/

/-- Whether `pat` is a leading segment of `s`. -/
def startsWithL : List Char → List Char → Bool
  | [], _ => true
  | _ :: _, [] => false
  | p :: ps, c :: cs => p == c && startsWithL ps cs

/-- Python `pat in s` for a non-empty pattern. -/
def containsSubL (pat : List Char) : List Char → Bool
  | [] => startsWithL pat []
  | c :: cs => startsWithL pat (c :: cs) || containsSubL pat cs

/-- Python `pat in s` on strings. -/
def containsSub (s pat : String) : Bool :=
  containsSubL pat.data s.data

/-- The text after the first occurrence of `pat` (`none` when `pat` does
not occur); `s.split(pat)[1:]` starts here. -/
def afterFirst (pat : List Char) : List Char → Option (List Char)
  | [] => none
  | c :: cs =>
    if startsWithL pat (c :: cs) then some (List.drop (pat.length - 1) cs)
    else afterFirst pat cs

/-- The text before the first occurrence of `pat` (`none` when `pat` does
not occur); this is `s.split(pat)[0]` when the split is non-trivial. -/
def beforeFirst (pat : List Char) : List Char → Option (List Char)
  | [] => none
  | c :: cs =>
    if startsWithL pat (c :: cs) then some []
    else (beforeFirst pat cs).map (c :: ·)

/-- Python `s.split(pat)[i]` for `i` = 0 or 1 relative to a segment that
is known to start right after an occurrence: the segment up to the next
occurrence of `pat`, or the whole remainder when `pat` does not occur
again. -/
def segmentUpTo (pat seg : List Char) : List Char :=
  match beforeFirst pat seg with
  | some x => x
  | none => seg

/-- The fallback parsing block of `run_pipeline` (step 2b, the `try`):
`raw_log.split("User ")[1].split(" executed action: ")` giving
`{"user": parts[0], "action": parts[1].split(" ")[0]}`; `none` models the
`IndexError` caught when either index `[1]` does not exist. -/
def fallback_parse (raw_log : String) : Option (List (String × String)) :=
  match afterFirst "User ".data raw_log.data with
  | none => none
  | some seg1 =>
    let seg := segmentUpTo "User ".data seg1
    match afterFirst " executed action: ".data seg with
    | none => none
    | some rest =>
      let p0 := segmentUpTo " executed action: ".data seg
      let p1 := segmentUpTo " executed action: ".data rest
      some [("user", String.mk p0),
            ("action", String.mk (p1.takeWhile fun c => !(c == ' ')))]

/-! ### reporter.py -/

/-- An evidence artifact as built by `generate_evidence_artifact`
(`EvidenceID` and `Timestamp` are environment reads, omitted). The
`ViolationReason` key is only present (`some`) when a truthy violation
message was supplied. -/
structure Artifact where
  nist_control : String
  status : String
  raw_log : String
  integrityVerified : Bool
  details : List (String × String)
  violationReason : Option String
deriving DecidableEq

/-- `generate_evidence_artifact(log_line, structured_data,
integrity_status, violation_msg)` from `modules/reporter.py`. -/
def generate_evidence_artifact (log_line : String)
    (structured_data : List (String × String)) (integrity_status : Bool)
    (violation_msg : Option String) : Artifact :=
  { nist_control := "AC-5 (Separation of Duties)"
    status := if pyTruthy violation_msg then "VIOLATION" else "COMPLIANT"
    raw_log := log_line
    integrityVerified := integrity_status
    details := structured_data
    violationReason := if pyTruthy violation_msg then violation_msg else none }

/-! ### database.py and main.py -/

/-- One `AuditItems` row as written by `save_audit_item` (`AuditID` and
`Timestamp` are environment-assigned, omitted); `evidence = none` models
the empty JSON payload `{}` of a compliant row. -/
structure AuditRow where
  log_id : Nat
  user_id : String
  action : String
  verdict : String
  nist_control : String
  evidence : Option Artifact
deriving DecidableEq

/-- Everything one `run_pipeline` call returns and emits: the boolean
return value, the artifacts handed to `save_artifact`, the
`IntegrityBaseline` rows appended (log line and hash), the `AuditItems`
rows appended, and the rule-engine state after the call. -/
structure PipelineResult where
  result : Bool
  artifacts : List Artifact
  baselines : List (String × String)
  findings : List AuditRow
  engine : RuleEngine
deriving DecidableEq

/-- Step 2/2b of `run_pipeline`: the structured data actually handed to
the rule engine — the extraction collaborator's dict, replaced by the
fallback parse (or `{}` on its `IndexError`) when the collaborator
returned an empty dict or one without an `"action"` key and the raw log
contains the fallback marker. -/
def extract_structured (parsed : List (String × String)) (raw_log : String) :
    List (String × String) :=
  if parsed.isEmpty || (dictGet parsed "action").isNone then
    if containsSub raw_log "executed action:" then
      match fallback_parse raw_log with
      | some d => d
      | none => []
    else parsed
  else parsed

/-- The compliant `AuditItems` row written when the violation list is
empty (verdict `Clear`, empty evidence payload). -/
def clear_row (log_id : Nat) (structured_data : List (String × String)) :
    AuditRow :=
  { log_id := log_id
    user_id := (dictGet structured_data "user").getD "unknown"
    action := (dictGet structured_data "action").getD "unknown"
    verdict := "Clear"
    nist_control := "AC-5"
    evidence := none }

/-- The `AuditItems` row written for one violation message `v`. -/
def violation_row (log_id : Nat) (structured_data : List (String × String))
    (raw_log : String) (integrity_status : Bool) (v : String) : AuditRow :=
  { log_id := log_id
    user_id := (dictGet structured_data "user").getD "unknown"
    action := (dictGet structured_data "action").getD "unknown"
    verdict := "Violation"
    nist_control := "AC-5"
    evidence := some (generate_evidence_artifact raw_log structured_data
      integrity_status (some v)) }

/-- The special tampering artifact built in step 1 of `run_pipeline`. -/
def tamper_artifact (raw_log : String) : Artifact :=
  generate_evidence_artifact raw_log [("Event", "Tampering Detected")]
    false (some "Hash Mismatch - Potential Log Tampering")

/-- `run_pipeline(raw_log, expected_hash)` from `main.py`, with the
external collaborators made explicit: `sha256` is the digest function,
`parsed` is the dict returned by the extraction collaborator
(`parse_log_with_phi3`) for this log line, `engine` is the shared rule
engine, and `next_log_id` is the row id `save_log_baseline` would
assign. Python's default `expected_hash=None` is `none`; a falsy
`expected_hash` skips the verification step. -/
def run_pipeline (sha256 : String → String)
    (parsed : List (String × String)) (engine : RuleEngine)
    (next_log_id : Nat) (raw_log : String) (expected_hash : Option String) :
    PipelineResult :=
  let current_hash := sha256 raw_log
  let integrity_status :=
    if pyTruthy expected_hash then
      verify_integrity sha256 raw_log (expected_hash.getD "")
    else true
  if pyTruthy expected_hash && !integrity_status then
    { result := false
      artifacts := [tamper_artifact raw_log]
      baselines := []
      findings := []
      engine := engine }
  else
    let structured_data := extract_structured parsed raw_log
    let va := analyze_log engine structured_data
    { result := true
      artifacts := va.1.map fun v =>
        generate_evidence_artifact raw_log structured_data integrity_status
          (some v)
      baselines := [(raw_log, current_hash)]
      findings :=
        if va.1.isEmpty then [clear_row next_log_id structured_data]
        else va.1.map fun v =>
          violation_row next_log_id structured_data raw_log integrity_status v
      engine := va.2 }

/-! ### Helper lemmas about the engine state -/

theorem lookupState_updateState_self (st : ActorHistory) (u a : String) :
    lookupState (updateState st u a) u = some (setInsert (actorActions st u) a) := by
  induction st with
  | nil => simp [updateState, lookupState, actorActions, setInsert]
  | cons kv rest ih =>
    obtain ⟨k, v⟩ := kv
    by_cases h : k = u
    · subst h; simp [updateState, lookupState, actorActions]
    · simp [updateState, lookupState, actorActions, h, ih]

theorem actorActions_updateState_self (st : ActorHistory) (u a : String) :
    actorActions (updateState st u a) u = setInsert (actorActions st u) a := by
  simp [actorActions, lookupState_updateState_self]

theorem lookupState_updateState_ne (st : ActorHistory) (u a u' : String)
    (h : u' ≠ u) : lookupState (updateState st u a) u' = lookupState st u' := by
  have h2 : ¬ u = u' := fun hh => h (Eq.symm hh)
  induction st with
  | nil => simp [updateState, lookupState, h2]
  | cons kv rest ih =>
    obtain ⟨k, v⟩ := kv
    by_cases hk : k = u
    · subst hk
      have : ¬ k = u' := fun hh => h (hh.symm)
      simp [updateState, lookupState, this]
    · by_cases hk' : k = u'
      · subst hk'; simp [updateState, lookupState, hk]
      · simp [updateState, lookupState, hk, hk', ih]

theorem actorActions_updateState_ne (st : ActorHistory) (u a u' : String)
    (h : u' ≠ u) : actorActions (updateState st u a) u' = actorActions st u' := by
  simp [actorActions, lookupState_updateState_ne st u a u' h]

theorem mem_setInsert_self (s : List String) (a : String) : a ∈ setInsert s a := by
  by_cases h : a ∈ s <;> simp [setInsert, h]

theorem mem_setInsert_of_mem (s : List String) (a b : String) (h : b ∈ s) :
    b ∈ setInsert s a := by
  by_cases h2 : a ∈ s <;> simp [setInsert, h2, h]

/-! ### Helper lemmas about analyze_log -/

theorem analyze_log_skip (e : RuleEngine) (d : List (String × String))
    (h : (pyTruthy (dictGet d "user") && pyTruthy (dictGet d "action")) = false) :
    analyze_log e d = ([], e) := by
  simp only [analyze_log, h, Bool.false_eq_true, if_false]

theorem analyze_log_run (e : RuleEngine) (d : List (String × String))
    (u a : String) (hu : dictGet d "user" = some u)
    (ha : dictGet d "action" = some a) (hu0 : u ≠ "") (ha0 : a ≠ "") :
    analyze_log e d =
      (sodViolations e.rules u (setInsert (actorActions e.user_state u) a),
       ⟨e.rules, updateState e.user_state u a⟩) := by
  simp [analyze_log, hu, ha, pyTruthy, hu0, ha0, actorActions_updateState_self]

theorem analyze_log_rules_eq (e : RuleEngine) (d : List (String × String)) :
    (analyze_log e d).2.rules = e.rules := by
  unfold analyze_log
  by_cases h : (pyTruthy (dictGet d "user") && pyTruthy (dictGet d "action")) = true <;>
    simp [h]

theorem mem_actorActions_analyze (e : RuleEngine) (d : List (String × String))
    (u b : String) (h : b ∈ actorActions e.user_state u) :
    b ∈ actorActions (analyze_log e d).2.user_state u := by
  unfold analyze_log
  by_cases hc : (pyTruthy (dictGet d "user") && pyTruthy (dictGet d "action")) = true
  · simp only [hc, if_true]
    by_cases hu : u = (dictGet d "user").getD ""
    · subst hu
      rw [actorActions_updateState_self]
      exact mem_setInsert_of_mem _ _ _ h
    · rw [actorActions_updateState_ne _ _ _ _ hu]
      exact h
  · simp only [Bool.not_eq_true] at hc
    simp [hc, h]

theorem mem_sodViolations (r : SodRule) (u a0 b0 : String)
    (actions : List String) (hp : (a0, b0) ∈ r.conflict_actions)
    (hA : a0 ∈ actions) (hB : b0 ∈ actions) :
    violationMsg r.id u a0 b0 ∈ sodViolations ⟨some r⟩ u actions := by
  simp only [sodViolations, List.mem_filterMap]
  exact ⟨(a0, b0), hp, by rw [if_pos ⟨hA, hB⟩]⟩

theorem sodViolations_none (u : String) (actions : List String) :
    sodViolations emptyRules u actions = [] := rfl

/-! ### Helper lemmas about substring containment -/

theorem containsSubL_append (pat xs ys : List Char)
    (h : containsSubL pat ys = true) : containsSubL pat (xs ++ ys) = true := by
  induction xs with
  | nil => simpa using h
  | cons c cs ih => simp [containsSubL, ih]

theorem startsWithL_append_self (pat ys : List Char) :
    startsWithL pat (pat ++ ys) = true := by
  induction pat with
  | nil => rfl
  | cons p ps ih => simp [startsWithL, ih]

theorem containsSubL_append_self_left (pat ys : List Char) :
    containsSubL pat (pat ++ ys) = true := by
  cases pat with
  | nil => cases ys <;> simp [containsSubL, startsWithL]
  | cons p ps =>
    have h := startsWithL_append_self (p :: ps) ys
    simp only [List.cons_append] at h
    simp [containsSubL, h]

/-! ### Helper lemma for the tamper branch of run_pipeline -/

theorem run_pipeline_tamper (sha256 : String → String)
    (parsed : List (String × String)) (engine : RuleEngine)
    (next_log_id : Nat) (raw_log e : String)
    (h1 : e ≠ "") (h2 : sha256 raw_log ≠ e) :
    run_pipeline sha256 parsed engine next_log_id raw_log (some e) =
      { result := false
        artifacts := [tamper_artifact raw_log]
        baselines := []
        findings := []
        engine := engine } := by
  simp [run_pipeline, pyTruthy, verify_integrity, h1, h2]

/-! ### Claim theorems -/

/-- C2: for a freshly constructed engine whose policy contains the single
conflict pair (Create_Invoice, Approve_Payment) under control id `cid`,
analyzing `{user: u1, action: Create_Invoice}` returns no violation, and
an immediately following `{user: u1, action: Approve_Payment}` returns
exactly the one violation message, which contains both action names and
the configured control id as substrings. -/
theorem claim_C2_sod_detection (cid : String) :
    (analyze_log ⟨⟨some ⟨cid, [("Create_Invoice", "Approve_Payment")]⟩⟩, []⟩
        [("user", "u1"), ("action", "Create_Invoice")]).1 = [] ∧
    (analyze_log
        (analyze_log ⟨⟨some ⟨cid, [("Create_Invoice", "Approve_Payment")]⟩⟩, []⟩
          [("user", "u1"), ("action", "Create_Invoice")]).2
        [("user", "u1"), ("action", "Approve_Payment")]).1 =
      [violationMsg cid "u1" "Create_Invoice" "Approve_Payment"] ∧
    containsSub (violationMsg cid "u1" "Create_Invoice" "Approve_Payment")
      "Create_Invoice" = true ∧
    containsSub (violationMsg cid "u1" "Create_Invoice" "Approve_Payment")
      "Approve_Payment" = true ∧
    containsSub (violationMsg cid "u1" "Create_Invoice" "Approve_Payment")
      cid = true := by
  refine ⟨rfl, rfl, ?_, ?_, ?_⟩
  · simp only [containsSub, violationMsg, String.data_append, List.append_assoc]
    apply containsSubL_append
    apply containsSubL_append
    decide
  · simp only [containsSub, violationMsg, String.data_append, List.append_assoc]
    apply containsSubL_append
    apply containsSubL_append
    decide
  · simp only [containsSub, violationMsg, String.data_append, List.append_assoc]
    apply containsSubL_append
    exact containsSubL_append_self_left _ _

/-- C4: an event whose user or action field is absent or empty (Python
falsy) makes analyze_log return the empty violation list and leave the
engine, in particular its ActorHistory, exactly as it was. -/
theorem claim_C4_partial_event_safety (e : RuleEngine)
    (d : List (String × String))
    (h : pyTruthy (dictGet d "user") = false ∨
         pyTruthy (dictGet d "action") = false) :
    analyze_log e d = ([], e) := by
  apply analyze_log_skip
  rcases h with h | h <;> simp [h]

/-- C4 witness: an event with a user but no action is a no-op. -/
theorem claim_C4_witness :
    analyze_log ⟨emptyRules, []⟩ [("user", "u1")] = ([], ⟨emptyRules, []⟩) :=
  claim_C4_partial_event_safety ⟨emptyRules, []⟩ [("user", "u1")]
    (Or.inr (by decide))

/-- C5: per-actor history grows monotonically: after analyzing (A, X)
then (A, Y) the actor's set contains both actions, a third call with X
again removes nothing, and no analyze_log call ever removes a recorded
action from any actor's set. -/
theorem claim_C5_monotonic_history (e0 : RuleEngine) (A X Y : String)
    (hA : A ≠ "") (hX : X ≠ "") (hY : Y ≠ "") :
    (X ∈ actorActions ((analyze_log (analyze_log e0
          [("user", A), ("action", X)]).2
          [("user", A), ("action", Y)]).2).user_state A ∧
     Y ∈ actorActions ((analyze_log (analyze_log e0
          [("user", A), ("action", X)]).2
          [("user", A), ("action", Y)]).2).user_state A) ∧
    (X ∈ actorActions ((analyze_log (analyze_log (analyze_log e0
          [("user", A), ("action", X)]).2
          [("user", A), ("action", Y)]).2
          [("user", A), ("action", X)]).2).user_state A ∧
     Y ∈ actorActions ((analyze_log (analyze_log (analyze_log e0
          [("user", A), ("action", X)]).2
          [("user", A), ("action", Y)]).2
          [("user", A), ("action", X)]).2).user_state A) ∧
    (∀ (e : RuleEngine) (d : List (String × String)) (u b : String),
      b ∈ actorActions e.user_state u →
      b ∈ actorActions (analyze_log e d).2.user_state u) := by
  have hu1 : dictGet [("user", A), ("action", X)] "user" = some A := by
    simp [dictGet]
  have ha1 : dictGet [("user", A), ("action", X)] "action" = some X := by
    simp [dictGet]
  have hu2 : dictGet [("user", A), ("action", Y)] "user" = some A := by
    simp [dictGet]
  have ha2 : dictGet [("user", A), ("action", Y)] "action" = some Y := by
    simp [dictGet]
  have hs1 : (analyze_log e0 [("user", A), ("action", X)]).2.user_state =
      updateState e0.user_state A X := by
    rw [analyze_log_run e0 _ A X hu1 ha1 hA hX]
  have hX1 : X ∈ actorActions
      (analyze_log e0 [("user", A), ("action", X)]).2.user_state A := by
    rw [hs1, actorActions_updateState_self]
    exact mem_setInsert_self _ _
  have hs2 : (analyze_log (analyze_log e0 [("user", A), ("action", X)]).2
      [("user", A), ("action", Y)]).2.user_state =
      updateState (analyze_log e0
        [("user", A), ("action", X)]).2.user_state A Y := by
    rw [analyze_log_run _ _ A Y hu2 ha2 hA hY]
  have hX2 : X ∈ actorActions (analyze_log (analyze_log e0
      [("user", A), ("action", X)]).2
      [("user", A), ("action", Y)]).2.user_state A := by
    rw [hs2, actorActions_updateState_self]
    exact mem_setInsert_of_mem _ _ _ hX1
  have hY2 : Y ∈ actorActions (analyze_log (analyze_log e0
      [("user", A), ("action", X)]).2
      [("user", A), ("action", Y)]).2.user_state A := by
    rw [hs2, actorActions_updateState_self]
    exact mem_setInsert_self _ _
  have hs3 : (analyze_log (analyze_log (analyze_log e0
      [("user", A), ("action", X)]).2 [("user", A), ("action", Y)]).2
      [("user", A), ("action", X)]).2.user_state =
      updateState (analyze_log (analyze_log e0
        [("user", A), ("action", X)]).2
        [("user", A), ("action", Y)]).2.user_state A X := by
    rw [analyze_log_run _ _ A X hu1 ha1 hA hX]
  have hX3 : X ∈ actorActions (analyze_log (analyze_log (analyze_log e0
      [("user", A), ("action", X)]).2 [("user", A), ("action", Y)]).2
      [("user", A), ("action", X)]).2.user_state A := by
    rw [hs3, actorActions_updateState_self]
    exact mem_setInsert_of_mem _ _ _ hX2
  have hY3 : Y ∈ actorActions (analyze_log (analyze_log (analyze_log e0
      [("user", A), ("action", X)]).2 [("user", A), ("action", Y)]).2
      [("user", A), ("action", X)]).2.user_state A := by
    rw [hs3, actorActions_updateState_self]
    exact mem_setInsert_of_mem _ _ _ hY2
  exact ⟨⟨hX2, hY2⟩, ⟨hX3, hY3⟩,
    fun e d u b hb => mem_actorActions_analyze e d u b hb⟩

/-- C5 witness: concrete two-call history accumulation for user u1. -/
theorem claim_C5_witness :
    "x" ∈ actorActions ((analyze_log (analyze_log ⟨emptyRules, []⟩
        [("user", "u1"), ("action", "x")]).2
        [("user", "u1"), ("action", "y")]).2).user_state "u1" ∧
    "y" ∈ actorActions ((analyze_log (analyze_log ⟨emptyRules, []⟩
        [("user", "u1"), ("action", "x")]).2
        [("user", "u1"), ("action", "y")]).2).user_state "u1" :=
  (claim_C5_monotonic_history ⟨emptyRules, []⟩ "u1" "x" "y"
    (by decide) (by decide) (by decide)).1

/-- C6: once both actions of a conflict pair of the loaded policy are in
an actor's action set, every subsequent analyze_log call for that actor
with a present (truthy) user and action emits the violation for that
pair again — there is no already-reported suppression. -/
theorem claim_C6_violation_refires (r : SodRule) (st : ActorHistory)
    (d : List (String × String)) (u a actionA actionB : String)
    (hu : dictGet d "user" = some u) (ha : dictGet d "action" = some a)
    (hu0 : u ≠ "") (ha0 : a ≠ "")
    (hpair : (actionA, actionB) ∈ r.conflict_actions)
    (hA : actionA ∈ actorActions st u) (hB : actionB ∈ actorActions st u) :
    violationMsg r.id u actionA actionB ∈ (analyze_log ⟨⟨some r⟩, st⟩ d).1 := by
  rw [analyze_log_run _ _ u a hu ha hu0 ha0]
  exact mem_sodViolations r u actionA actionB _ hpair
    (mem_setInsert_of_mem _ _ _ hA) (mem_setInsert_of_mem _ _ _ hB)

/-- C6 witness: u1 already holds both x and y; an unrelated action z
still re-fires the (x, y) violation. -/
theorem claim_C6_witness :
    violationMsg "AC-5" "u1" "x" "y" ∈
      (analyze_log ⟨⟨some ⟨"AC-5", [("x", "y")]⟩⟩, [("u1", ["x", "y"])]⟩
        [("user", "u1"), ("action", "z")]).1 :=
  claim_C6_violation_refires ⟨"AC-5", [("x", "y")]⟩ [("u1", ["x", "y"])]
    [("user", "u1"), ("action", "z")] "u1" "z" "x" "y"
    (by decide) (by decide) (by decide) (by decide)
    (by decide) (by decide) (by decide)

/-- C7: when the policy source is unreadable or malformed (`none`), the
engine is constructed with the empty rule set instead of an error, and
then every analyze_log call — from any engine state reached later —
returns the empty violation list while the rules stay empty. -/
theorem claim_C7_fail_open :
    load_rules none = emptyRules ∧
    ∀ (st : ActorHistory) (d : List (String × String)),
      (analyze_log ⟨load_rules none, st⟩ d).1 = [] ∧
      (analyze_log ⟨load_rules none, st⟩ d).2.rules = load_rules none := by
  refine ⟨rfl, fun st d => ⟨?_, analyze_log_rules_eq _ _⟩⟩
  by_cases h : (pyTruthy (dictGet d "user") && pyTruthy (dictGet d "action")) = true
  · simp [analyze_log, h, load_rules, emptyRules, sodViolations]
  · simp only [Bool.not_eq_true] at h
    rw [analyze_log_skip _ _ h]

/-- C9: the violations returned for an event depend only on the acting
user's own recorded action set (and the rules): two engine states that
agree on that user's set yield identical violation lists, whatever is
recorded for other actors. -/
theorem claim_C9_no_cross_actor_leakage (rules : Rules)
    (st1 st2 : ActorHistory) (d : List (String × String))
    (h : actorActions st1 ((dictGet d "user").getD "") =
         actorActions st2 ((dictGet d "user").getD "")) :
    (analyze_log ⟨rules, st1⟩ d).1 = (analyze_log ⟨rules, st2⟩ d).1 := by
  by_cases hc : (pyTruthy (dictGet d "user") && pyTruthy (dictGet d "action")) = true
  · simp only [analyze_log, hc, if_true]
    rw [actorActions_updateState_self, actorActions_updateState_self, h]
  · simp only [Bool.not_eq_true] at hc
    rw [analyze_log_skip _ _ hc, analyze_log_skip _ _ hc]

/-- C9 witness: actor A's rich history does not change what actor B's
event returns compared to an engine that never saw A. -/
theorem claim_C9_witness :
    (analyze_log ⟨⟨some ⟨"AC-5", [("x", "y")]⟩⟩, [("A", ["x", "y"])]⟩
        [("user", "B"), ("action", "x")]).1 =
    (analyze_log ⟨⟨some ⟨"AC-5", [("x", "y")]⟩⟩, []⟩
        [("user", "B"), ("action", "x")]).1 :=
  claim_C9_no_cross_actor_leakage ⟨some ⟨"AC-5", [("x", "y")]⟩⟩
    [("A", ["x", "y"])] [] [("user", "B"), ("action", "x")] (by decide)

/-- C10: with no SoD rule loaded, analyze_log on a complete event still
records the action into the actor's history unconditionally: it returns
the empty violation list yet mutates user_state exactly as it would with
a policy present. -/
theorem claim_C10_unconditional_update (rules : Rules) (st : ActorHistory)
    (d : List (String × String)) (u a : String)
    (hr : rules.nist_ac2_sod = none)
    (hu : dictGet d "user" = some u) (ha : dictGet d "action" = some a)
    (hu0 : u ≠ "") (ha0 : a ≠ "") :
    (analyze_log ⟨rules, st⟩ d).1 = [] ∧
    (analyze_log ⟨rules, st⟩ d).2.user_state = updateState st u a ∧
    a ∈ actorActions (analyze_log ⟨rules, st⟩ d).2.user_state u := by
  rw [analyze_log_run _ _ u a hu ha hu0 ha0]
  refine ⟨by simp [sodViolations, hr], rfl, ?_⟩
  show a ∈ actorActions (updateState st u a) u
  rw [actorActions_updateState_self]
  exact mem_setInsert_self _ _

/-- C10 witness: empty policy, complete event — no violation, state
mutated. -/
theorem claim_C10_witness :
    (analyze_log ⟨emptyRules, []⟩ [("user", "u1"), ("action", "x")]).1 = [] ∧
    (analyze_log ⟨emptyRules, []⟩
      [("user", "u1"), ("action", "x")]).2.user_state = updateState [] "u1" "x" ∧
    "x" ∈ actorActions (analyze_log ⟨emptyRules, []⟩
      [("user", "u1"), ("action", "x")]).2.user_state "u1" :=
  claim_C10_unconditional_update emptyRules [] [("user", "u1"), ("action", "x")]
    "u1" "x" (by decide) (by decide) (by decide) (by decide) (by decide)

/-! ### Helper lemma for the normal path of run_pipeline -/

theorem run_pipeline_normal (sha256 : String → String)
    (parsed : List (String × String)) (engine : RuleEngine)
    (next_log_id : Nat) (raw_log : String) (expected_hash : Option String)
    (hc : (pyTruthy expected_hash &&
      !(if pyTruthy expected_hash then
          verify_integrity sha256 raw_log (expected_hash.getD "")
        else true)) = false) :
    run_pipeline sha256 parsed engine next_log_id raw_log expected_hash =
      { result := true
        artifacts :=
          (analyze_log engine (extract_structured parsed raw_log)).1.map
            fun v => generate_evidence_artifact raw_log
              (extract_structured parsed raw_log)
              (if pyTruthy expected_hash then
                verify_integrity sha256 raw_log (expected_hash.getD "")
              else true) (some v)
        baselines := [(raw_log, sha256 raw_log)]
        findings :=
          if (analyze_log engine (extract_structured parsed raw_log)).1.isEmpty
          then [clear_row next_log_id (extract_structured parsed raw_log)]
          else
            (analyze_log engine (extract_structured parsed raw_log)).1.map
              fun v => violation_row next_log_id
                (extract_structured parsed raw_log) raw_log
                (if pyTruthy expected_hash then
                  verify_integrity sha256 raw_log (expected_hash.getD "")
                else true) v
        engine := (analyze_log engine (extract_structured parsed raw_log)).2 } := by
  simp only [run_pipeline, hc, Bool.false_eq_true, if_false]

/-- C1: a supplied (non-empty) baseline digest that differs from the
digest of the raw log makes run_pipeline return false, emit exactly the
one tampering VIOLATION artifact (IntegrityVerified false, reason "Hash
Mismatch - Potential Log Tampering"), persist nothing (no baseline row,
no finding row), leave the engine — hence ActorHistory — unchanged, and
never look at the extraction result. -/
theorem claim_C1_tamper_short_circuit (sha256 : String → String)
    (parsed : List (String × String)) (engine : RuleEngine)
    (next_log_id : Nat) (raw_log e : String)
    (h1 : e ≠ "") (h2 : sha256 raw_log ≠ e) :
    (run_pipeline sha256 parsed engine next_log_id raw_log (some e)).result =
      false ∧
    (run_pipeline sha256 parsed engine next_log_id raw_log (some e)).artifacts =
      [{ nist_control := "AC-5 (Separation of Duties)"
         status := "VIOLATION"
         raw_log := raw_log
         integrityVerified := false
         details := [("Event", "Tampering Detected")]
         violationReason := some "Hash Mismatch - Potential Log Tampering" }] ∧
    (run_pipeline sha256 parsed engine next_log_id raw_log (some e)).baselines =
      [] ∧
    (run_pipeline sha256 parsed engine next_log_id raw_log (some e)).findings =
      [] ∧
    (run_pipeline sha256 parsed engine next_log_id raw_log (some e)).engine =
      engine ∧
    (∀ parsed2, run_pipeline sha256 parsed2 engine next_log_id raw_log (some e) =
      run_pipeline sha256 parsed engine next_log_id raw_log (some e)) := by
  have h := run_pipeline_tamper sha256 parsed engine next_log_id raw_log e h1 h2
  refine ⟨by rw [h], by rw [h]; rfl, by rw [h], by rw [h], by rw [h],
    fun parsed2 => ?_⟩
  rw [h, run_pipeline_tamper sha256 parsed2 engine next_log_id raw_log e h1 h2]

/-- C1 witness: concrete digest mismatch aborts with no finding row. -/
theorem claim_C1_witness :
    (run_pipeline (fun _ => "digest0") [] ⟨emptyRules, []⟩ 0 "log line"
      (some "digest1")).result = false ∧
    (run_pipeline (fun _ => "digest0") [] ⟨emptyRules, []⟩ 0 "log line"
      (some "digest1")).findings = [] :=
  ⟨(claim_C1_tamper_short_circuit (fun _ => "digest0") [] ⟨emptyRules, []⟩ 0
      "log line" "digest1" (by decide) (by decide)).1,
   (claim_C1_tamper_short_circuit (fun _ => "digest0") [] ⟨emptyRules, []⟩ 0
      "log line" "digest1" (by decide) (by decide)).2.2.2.1⟩

/-- C3 counterexample: with the policy holding the two conflict pairs
(x, y) and (y, x) and u1 having already done x, the line
"User u1 executed action: y" completes normally yet persists TWO
Violation finding rows for this single log line, refuting "never more
than one finding row per processed log line". -/
theorem claim_C3_counterexample :
    (run_pipeline (fun _ => "h") []
      ⟨⟨some ⟨"AC-5", [("x", "y"), ("y", "x")]⟩⟩, [("u1", ["x"])]⟩ 1
      "User u1 executed action: y" none).result = true ∧
    (run_pipeline (fun _ => "h") []
      ⟨⟨some ⟨"AC-5", [("x", "y"), ("y", "x")]⟩⟩, [("u1", ["x"])]⟩ 1
      "User u1 executed action: y" none).findings.length = 2 := by
  decide

/-- C3 amended: every normally-completing call persists at least one
finding row for the log line: exactly one Clear row with an empty
evidence payload when the evaluation stage reports no violations, and
otherwise exactly one Violation row per reported violation (one
violation gives one row, several violations give several rows). -/
theorem claim_C3_findings_per_line (sha256 : String → String)
    (parsed : List (String × String)) (engine : RuleEngine)
    (next_log_id : Nat) (raw_log : String) (expected_hash : Option String)
    (hres : (run_pipeline sha256 parsed engine next_log_id raw_log
      expected_hash).result = true) :
    ((run_pipeline sha256 parsed engine next_log_id raw_log
        expected_hash).artifacts = [] →
      (run_pipeline sha256 parsed engine next_log_id raw_log
        expected_hash).findings.length = 1 ∧
      ∀ row ∈ (run_pipeline sha256 parsed engine next_log_id raw_log
        expected_hash).findings, row.verdict = "Clear" ∧ row.evidence = none) ∧
    ((run_pipeline sha256 parsed engine next_log_id raw_log
        expected_hash).artifacts ≠ [] →
      (run_pipeline sha256 parsed engine next_log_id raw_log
        expected_hash).findings.length =
      (run_pipeline sha256 parsed engine next_log_id raw_log
        expected_hash).artifacts.length ∧
      ∀ row ∈ (run_pipeline sha256 parsed engine next_log_id raw_log
        expected_hash).findings, row.verdict = "Violation") := by
  by_cases hc : (pyTruthy expected_hash &&
      !(if pyTruthy expected_hash then
          verify_integrity sha256 raw_log (expected_hash.getD "")
        else true)) = true
  · exfalso
    have hf : (run_pipeline sha256 parsed engine next_log_id raw_log
        expected_hash).result = false := by
      simp only [run_pipeline, hc, if_true]
    rw [hf] at hres
    exact Bool.false_ne_true hres
  · simp only [Bool.not_eq_true] at hc
    rw [run_pipeline_normal sha256 parsed engine next_log_id raw_log
      expected_hash hc]
    cases hviol : (analyze_log engine (extract_structured parsed raw_log)).1 with
    | nil =>
      refine ⟨fun _ => ⟨rfl, ?_⟩, fun hcontra => absurd rfl hcontra⟩
      intro row hrow
      simp only [List.isEmpty_nil, if_true, List.mem_singleton] at hrow
      subst hrow
      exact ⟨rfl, rfl⟩
    | cons v vs =>
      refine ⟨fun hcontra => absurd hcontra (by simp), fun _ => ⟨?_, ?_⟩⟩
      · simp
      · intro row hrow
        simp only [List.isEmpty_cons, Bool.false_eq_true, if_false,
          List.mem_map] at hrow
        obtain ⟨w, hw1, hw2⟩ := hrow
        rw [← hw2]
        rfl

/-- C3 amended witness: a no-violation line yields exactly one Clear
row. -/
theorem claim_C3_witness :
    (run_pipeline (fun _ => "h") [] ⟨emptyRules, []⟩ 0 "raw" none).findings.length
      = 1 ∧
    ∀ row ∈ (run_pipeline (fun _ => "h") [] ⟨emptyRules, []⟩ 0 "raw"
      none).findings, row.verdict = "Clear" ∧ row.evidence = none :=
  (claim_C3_findings_per_line (fun _ => "h") [] ⟨emptyRules, []⟩ 0 "raw" none
    (by decide)).1 (by decide)

/-- C8: when the extraction collaborator returns an empty dict and the
textual fallback also fails (no marker in the raw log, or the fallback
split raises), the pipeline proceeds with unknown/unknown placeholders in
the persisted row, completes normally, and leaves the engine unchanged;
an extraction failure never aborts the pipeline; and the fallback pattern
"User <actor> executed action: <action>" is what the fallback parse
recovers. -/
theorem claim_C8_extraction_fallback (sha256 : String → String)
    (engine : RuleEngine) (next_log_id : Nat) (raw_log : String)
    (h : containsSub raw_log "executed action:" = false ∨
         fallback_parse raw_log = none) :
    (run_pipeline sha256 [] engine next_log_id raw_log none).result = true ∧
    (run_pipeline sha256 [] engine next_log_id raw_log none).findings =
      [{ log_id := next_log_id
         user_id := "unknown"
         action := "unknown"
         verdict := "Clear"
         nist_control := "AC-5"
         evidence := none }] ∧
    (run_pipeline sha256 [] engine next_log_id raw_log none).engine = engine ∧
    (∀ (parsed : List (String × String)) (raw2 : String),
      (run_pipeline sha256 parsed engine next_log_id raw2 none).result = true) ∧
    fallback_parse "User u1 executed action: Login from host7" =
      some [("user", "u1"), ("action", "Login")] := by
  have hstruct : extract_structured [] raw_log = [] := by
    rcases h with h | h
    · simp [extract_structured, h]
    · by_cases hc : containsSub raw_log "executed action:" = true <;>
        simp [extract_structured, hc, h]
  have hana : analyze_log engine [] = ([], engine) :=
    analyze_log_skip engine [] rfl
  rw [run_pipeline_normal sha256 [] engine next_log_id raw_log none rfl,
    hstruct, hana]
  exact ⟨rfl, rfl, rfl, fun parsed raw2 => rfl, by decide⟩

/-- C8 witness: a log line without the fallback marker still completes
with an unknown/unknown Clear row. -/
theorem claim_C8_witness :
    (run_pipeline (fun _ => "h") [] ⟨emptyRules, []⟩ 3 "plain log line"
      none).result = true ∧
    (run_pipeline (fun _ => "h") [] ⟨emptyRules, []⟩ 3 "plain log line"
      none).findings =
      [{ log_id := 3
         user_id := "unknown"
         action := "unknown"
         verdict := "Clear"
         nist_control := "AC-5"
         evidence := none }] :=
  ⟨(claim_C8_extraction_fallback (fun _ => "h") ⟨emptyRules, []⟩ 3
      "plain log line" (Or.inl (by decide))).1,
   (claim_C8_extraction_fallback (fun _ => "h") ⟨emptyRules, []⟩ 3
      "plain log line" (Or.inl (by decide))).2.1⟩

end Alisa
